import Mathlib

/-!
Shallow embedding of the custom Asio async-stream pattern of this repository:
the `MyAsyncReadStream` / `MyAsyncWriteStream` demo streams
(src/AsyncReadStreamDemo.h, src/AsyncWriteStreamDemo.h) and the
coroutine-based `MyAsyncStream` over the `ModernIOService` family
(examples/coro_basic_io_object.cpp, examples/coro_advcd_io_object.cpp).

Bytes are modelled as `Char`, byte buffers as `List Char`, executors and
strands as `Nat` identifiers.  A caller-supplied destination buffer is
modelled by its remaining capacity (`cap : Nat`; `buf_begin == buf_end`
iff `cap = 0`) together with the list of bytes written so far.
-/

/-- Error codes produced by the streams.  These are exactly the
`boost::system::error_code` values assigned in the source:
`asio::error::fault` (initial value, overwritten on every path),
`asio::error::bad_descriptor` (dead weak reference),
`asio::error::no_buffer_space` (destination full),
`asio::error::would_block` (no data at the cursor yet) and
`asio::error::eof` / `asio::stream_errc::eof` (successful completion /
end of the bounded range). -/
inductive ErrC where
  | fault
  | bad_descriptor
  | no_buffer_space
  | would_block
  | eof
  deriving DecidableEq, Repr

/-- How a completion handler is eventually invoked by an operation. -/
inductive Delivery where
  /-- The handler runs inside a task submitted to the executor with this id
  (an `asio::post` / `asio::co_spawn` onto that executor in the source). -/
  | postedTo (execId : Nat)
  /-- The handler is invoked inline, within the initiating function itself;
  the source never does this, the constructor exists as the alternative the
  code avoids. -/
  | inlineCall
  deriving DecidableEq, Repr

/-- Completion record of one partial operation: the error code and the
count of transferred bytes handed to the completion handler. -/
structure Completion where
  err : ErrC
  transferred : Nat
  deriving DecidableEq, Repr

/-- Transfer loop of `MyAsyncReadStream::async_read_some`
(src/AsyncReadStreamDemo.h, lines 286-315), run on the producer strand.
`pd` is `impl->producedData`, `e` the stream's `end`, `hd` the stream's
`head`, `cap` the remaining destination capacity, `it` the transferred
count so far and `acc` the bytes copied so far (in reverse).  Returns
`(err, it, bytes written to the destination, new head, producedData after
the loop)`; the source never assigns to `producedData` inside the loop, so
the last component is threaded through unchanged on every path. -/
def read_some_loop (pd : List Char) (e : Nat) (hd cap it : Nat) (acc : List Char) :
    ErrC × Nat × List Char × Nat × List Char :=
  if h : hd ≤ e then
    if cap = 0 then (ErrC.no_buffer_space, it, acc.reverse, hd, pd)
    else if pd.length ≤ hd then (ErrC.would_block, it, acc.reverse, hd, pd)
    else read_some_loop pd e (hd + 1) (cap - 1) (it + 1) (pd.getD hd 'a' :: acc)
  else (ErrC.eof, it, acc.reverse, hd, pd)
termination_by e + 1 - hd
decreasing_by omega

/-- Transfer loop of `MyAsyncWriteStream::async_write_some`
(src/AsyncWriteStreamDemo.h, lines 232-255): while `buf_begin != buf_end`
push one source byte onto `impl->consumedData`, then report `eof`.
Returns `(err, it, consumedData after the loop)`. -/
def write_some_loop (consumed : List Char) (it : Nat) : List Char → ErrC × Nat × List Char
  | [] => (ErrC.eof, it, consumed)
  | c :: rest => write_some_loop (consumed ++ [c]) (it + 1) rest

/-- Transfer loop of the coroutine stream `MyAsyncStream::async_read_some`
(examples/coro_basic_io_object.cpp lines 154-169,
examples/coro_advcd_io_object.cpp lines 225-240): while `buffer_out` is
non-empty, fail with `no_buffer_space` if the destination is full,
otherwise copy `buffer_out.at(0)` and `erase(0, 1)`; an empty `buffer_out`
terminates with `eof`.  Returns `(err, it, bytes read, remaining
buffer_out)`. -/
def stream_read_loop (cap it : Nat) (acc : List Char) : List Char → ErrC × Nat × List Char × List Char
  | [] => (ErrC.eof, it, acc.reverse, [])
  | c :: rest =>
    if cap = 0 then (ErrC.no_buffer_space, it, acc.reverse, c :: rest)
    else stream_read_loop (cap - 1) (it + 1) (c :: acc) rest

/-- Transfer loop of the coroutine stream `MyAsyncStream::async_write_some`
(examples/coro_basic_io_object.cpp lines 207-215,
examples/coro_advcd_io_object.cpp lines 273-281): push every source byte
onto `buffer_in`, then report `eof`.  Returns `(err, it, buffer_in after
the loop)`. -/
def stream_write_loop (buffer_in : List Char) (it : Nat) : List Char → ErrC × Nat × List Char
  | [] => (ErrC.eof, it, buffer_in)
  | c :: rest => stream_write_loop (buffer_in ++ [c]) (it + 1) rest

/-- Caller-visible state of a `MyAsyncReadStream` handle
(src/AsyncReadStreamDemo.h lines 182-219): the caller executor, the
private cursor pair `head` / `end` (here `endIdx`, `end` being a Lean
keyword) and whether `implRef.lock()` succeeds at call time. -/
structure MyAsyncReadStream where
  executor : Nat
  head : Nat
  endIdx : Nat
  implAlive : Bool
  deriving DecidableEq, Repr

/-- Result of one `async_read_some` call on the demo read stream. -/
structure ReadResult where
  delivery : Delivery
  completion : Completion
  dataRead : List Char
  head : Nat
  producedData : List Char
  deriving DecidableEq, Repr

/-- `MyAsyncReadStream::async_read_some` (src/AsyncReadStreamDemo.h lines
245-327).  If `implRef.lock()` fails, a task invoking the handler with
`(bad_descriptor, 0)` is posted to the stream's executor (lines 262-271);
the handler is never invoked inline.  Otherwise the transfer loop runs on
the producer strand and the completion is posted to the stream's executor
(lines 319-325). -/
def async_read_some (s : MyAsyncReadStream) (pd : List Char) (cap : Nat) : ReadResult :=
  if s.implAlive = false then
    { delivery := Delivery.postedTo s.executor,
      completion := { err := ErrC.bad_descriptor, transferred := 0 },
      dataRead := [], head := s.head, producedData := pd }
  else
    match read_some_loop pd s.endIdx s.head cap 0 [] with
    | (err, it, dataRead, hd', pd') =>
      { delivery := Delivery.postedTo s.executor,
        completion := { err := err, transferred := it },
        dataRead := dataRead, head := hd', producedData := pd' }

/-- State of the `ConsumerImpl` service (src/AsyncWriteStreamDemo.h lines
29-100): the one-shot `consuming` flag, the `consumedData` buffer, plus a
ghost counter of background loop chains that have been spawned and have
not yet terminated. -/
structure ConsumerState where
  consuming : Bool
  consumedData : List Char
  activeLoops : Nat
  deriving DecidableEq, Repr

/-- `ConsumerImpl::ensureConsuming` (src/AsyncWriteStreamDemo.h lines
83-90): if the `consuming` flag is not set, set it and post the
background consumption loop (`veryExpensiveOperation`) to the strand —
recorded by incrementing the ghost counter `activeLoops`; if the flag is
already set, do nothing. -/
def ensureConsuming (s : ConsumerState) : ConsumerState :=
  if s.consuming then s
  else { s with consuming := true, activeLoops := s.activeLoops + 1 }

/-- One iteration of the background loop,
`ConsumerImpl::veryExpensiveOperation` + `consume`
(src/AsyncWriteStreamDemo.h lines 46-76): if `consumedData` is non-empty,
erase its first byte and reschedule itself; otherwise clear `consuming`
and let the loop chain die (ghost counter decremented). -/
def consumeStep (s : ConsumerState) : ConsumerState :=
  match s.consumedData with
  | [] => { s with consuming := false, activeLoops := s.activeLoops - 1 }
  | _ :: rest => { s with consumedData := rest }

/-- Caller-visible state of a `MyAsyncWriteStream` handle
(src/AsyncWriteStreamDemo.h lines 138-164). -/
structure MyAsyncWriteStream where
  executor : Nat
  implAlive : Bool
  deriving DecidableEq, Repr

/-- Result of one `async_write_some` call on the demo write stream. -/
structure WriteResult where
  delivery : Delivery
  completion : Completion
  consumer : ConsumerState
  deriving DecidableEq, Repr

/-- `MyAsyncWriteStream::async_write_some` (src/AsyncWriteStreamDemo.h
lines 190-269).  If `implRef.lock()` fails, a task invoking the handler
with `(bad_descriptor, 0)` is posted to the stream's executor (lines
207-216); the handler is never invoked inline.  Otherwise the transfer
loop runs on the consumer strand, `ensureConsuming()` is called at the
`completion` label (line 257) and the completion is posted to the
stream's executor (lines 261-267). -/
def async_write_some (s : MyAsyncWriteStream) (cons : ConsumerState) (src : List Char) : WriteResult :=
  if s.implAlive = false then
    { delivery := Delivery.postedTo s.executor,
      completion := { err := ErrC.bad_descriptor, transferred := 0 },
      consumer := cons }
  else
    match write_some_loop cons.consumedData 0 src with
    | (err, it, consumed') =>
      { delivery := Delivery.postedTo s.executor,
        completion := { err := err, transferred := it },
        consumer := ensureConsuming { cons with consumedData := consumed' } }

/-- Caller-visible state of the coroutine stream `MyAsyncStream`
(examples/coro_basic_io_object.cpp lines 100-223): the caller executor
and whether `service_ptr.lock()` succeeds at call time. -/
structure MyAsyncStream where
  executor : Nat
  serviceAlive : Bool
  deriving DecidableEq, Repr

/-- Result of one `async_read_some` call on the coroutine stream. -/
structure StreamReadResult where
  delivery : Delivery
  completion : Completion
  dataRead : List Char
  buffer_out : List Char
  deriving DecidableEq, Repr

/-- `MyAsyncStream::async_read_some` (examples/coro_basic_io_object.cpp
lines 123-176).  The whole operation body is a coroutine spawned with
`co_spawn` onto the executor associated with the completion handler
(falling back to the stream's executor), so the handler is invoked inside
a task on the caller executor, never inline with the initiating call; on
a dead service that task delivers `(bad_descriptor, 0)` (lines 143-147),
otherwise the transfer loop runs on the service strand and the handler is
invoked after `co_await post(to_caller)` (lines 171-173). -/
def stream_async_read_some (s : MyAsyncStream) (buffer_out : List Char) (cap : Nat) :
    StreamReadResult :=
  if s.serviceAlive = false then
    { delivery := Delivery.postedTo s.executor,
      completion := { err := ErrC.bad_descriptor, transferred := 0 },
      dataRead := [], buffer_out := buffer_out }
  else
    match stream_read_loop cap 0 [] buffer_out with
    | (err, it, dataRead, rest) =>
      { delivery := Delivery.postedTo s.executor,
        completion := { err := err, transferred := it },
        dataRead := dataRead, buffer_out := rest }

/-- Result of one `async_write_some` call on the coroutine stream. -/
structure StreamWriteResult where
  delivery : Delivery
  completion : Completion
  buffer_in : List Char
  deriving DecidableEq, Repr

/-- `MyAsyncStream::async_write_some` (examples/coro_basic_io_object.cpp
lines 182-222), same shape as the read: spawned onto the caller executor,
`(bad_descriptor, 0)` on a dead service (lines 196-200), otherwise the
transfer loop runs on the service strand and the handler is invoked after
posting back to the caller. -/
def stream_async_write_some (s : MyAsyncStream) (buffer_in : List Char) (src : List Char) :
    StreamWriteResult :=
  if s.serviceAlive = false then
    { delivery := Delivery.postedTo s.executor,
      completion := { err := ErrC.bad_descriptor, transferred := 0 },
      buffer_in := buffer_in }
  else
    match stream_write_loop buffer_in 0 src with
    | (err, it, buffer_in') =>
      { delivery := Delivery.postedTo s.executor,
        completion := { err := err, transferred := it },
        buffer_in := buffer_in' }

/-- The `ConsumerImpl` with a freshly constructed state
(src/AsyncWriteStreamDemo.h line 79): flag clear, empty buffer, no loop
running. -/
def freshConsumer : ConsumerState :=
  { consuming := false, consumedData := [], activeLoops := 0 }

/-- System steps of the consumer service: a bare `ensureConsuming` call, a
background-loop iteration (which only runs while a loop chain is alive,
i.e. while `consuming` is set), and a completed `async_write_some`
transfer (which appends the source bytes and then calls
`ensureConsuming`, src/AsyncWriteStreamDemo.h lines 236-257). -/
inductive CStep : ConsumerState → ConsumerState → Prop where
  | ensure (s : ConsumerState) : CStep s (ensureConsuming s)
  | iter (s : ConsumerState) (h : s.consuming = true) : CStep s (consumeStep s)
  | write (s : ConsumerState) (ex : Nat) (src : List Char) :
      CStep s (async_write_some { executor := ex, implAlive := true } s src).consumer

/-- State of the `std::once_flag init_once` guard of `ModernIOService`
(examples/coro_basic_io_object.cpp lines 83-93): whether `call_once` has
already run, plus a ghost counter of `co_spawn`ed main loops. -/
structure ModernIOServiceState where
  initDone : Bool
  loopsSpawned : Nat
  deriving DecidableEq, Repr

/-- `ModernIOService::init` (examples/coro_basic_io_object.cpp lines
89-93): `std::call_once(init_once, ...)` around
`co_spawn(strand, main(shared_from_this()), detached)` — the loop is
spawned only the first time, every later call is a no-op. -/
def init (s : ModernIOServiceState) : ModernIOServiceState :=
  if s.initDone then s
  else { initDone := true, loopsSpawned := s.loopsSpawned + 1 }

/-- State of the advanced example's `ModernIOServiceImpl`
(examples/coro_advcd_io_object.cpp lines 81-173) as far as its start
operation is concerned: only the ghost counter of `co_spawn`ed main
loops — the class holds no once-flag or any other start guard. -/
structure AdvcdServiceState where
  loopsSpawned : Nat
  deriving DecidableEq, Repr

/-- `ModernIOServiceImpl::init` of the advanced example
(examples/coro_advcd_io_object.cpp lines 152-160): posts an init task to
the strand and then unconditionally runs
`co_spawn(strand, main(shared_from_this()), detached)` — there is no
guard, so every call spawns one more main loop. -/
def init_advcd (s : AdvcdServiceState) : AdvcdServiceState :=
  { loopsSpawned := s.loopsSpawned + 1 }

/-- Tasks queued on the service strand that hold a strong reference to the
service implementation: the zero-argument teardown task the wrapper
destructor posts (`Producer::~Producer`, src/AsyncReadStreamDemo.h lines
168-175; `ModernIOService::~ModernIOService`,
examples/coro_advcd_io_object.cpp lines 474-484), and a background-loop
iteration with the number of further iterations it will schedule
(`veryExpensiveOperation`, which re-captures `captured_self` while
iterations remain). -/
inductive STask where
  | releaseRef
  | loopIter (remaining : Nat)
  deriving DecidableEq, Repr

/-- World state for the teardown protocol: the FIFO queue of the service
strand, whether the wrapper still holds its strong reference, the total
strong reference count of the impl, and the executor on which the impl
destructor ran (`none` while it is still alive). -/
structure TWorld where
  queue : List STask
  wrapperRef : Bool
  refs : Nat
  destroyedOn : Option Nat
  deriving DecidableEq, Repr

/-- The wrapper destructor (`Producer::~Producer`,
src/AsyncReadStreamDemo.h lines 168-175, and
`ModernIOService::~ModernIOService`, examples/coro_advcd_io_object.cpp
lines 474-484): move the wrapper's strong reference into a zero-argument
task, submit that task to the service strand and return without waiting
(the `fut.wait()` line is commented out in both).  The reference count
does not drop here — the reference is moved, not released — and a
moved-from wrapper (`if (!impl) return;`) does nothing. -/
def wrapperDtor (w : TWorld) : TWorld :=
  if w.wrapperRef then
    { w with queue := w.queue ++ [STask.releaseRef], wrapperRef := false }
  else w

/-- Run one strand task on executor `sid` (the strand).  Dropping the last
strong reference runs the impl destructor there and then; a loop
iteration with work remaining re-captures its reference into the next
scheduled iteration (src/AsyncReadStreamDemo.h lines 79-92), and the last
iteration simply lets its captured reference go out of scope. -/
def runTask (sid : Nat) (w : TWorld) : STask → TWorld
  | STask.releaseRef =>
    { w with refs := w.refs - 1,
             destroyedOn := if w.refs - 1 = 0 then some sid else w.destroyedOn }
  | STask.loopIter (n + 1) => { w with queue := w.queue ++ [STask.loopIter n] }
  | STask.loopIter 0 =>
    { w with refs := w.refs - 1,
             destroyedOn := if w.refs - 1 = 0 then some sid else w.destroyedOn }

/-- Termination measure of one strand task. -/
def tMeasure : STask → Nat
  | STask.releaseRef => 1
  | STask.loopIter n => 2 * n + 1

/-- Termination measure of a strand queue. -/
def qMeasure (q : List STask) : Nat := (q.map tMeasure).sum

/-- Run the service strand until its queue is empty: tasks execute one at
a time, in submission order, all on executor `sid`. -/
def drain (sid : Nat) (w : TWorld) : TWorld :=
  match h : w.queue with
  | [] => w
  | t :: rest => drain sid (runTask sid { w with queue := rest } t)
termination_by qMeasure w.queue
decreasing_by
  rw [h]
  cases t with
  | releaseRef => simp [runTask, qMeasure, tMeasure]
  | loopIter n =>
    cases n with
    | zero => simp [runTask, qMeasure, tMeasure]
    | succ m => simp [runTask, qMeasure, tMeasure]; omega

/-- One step of an asynchronous operation, tagged with the executor it
runs on and whether it reads or mutates the shared service buffers
(`producedData` / `consumedData` / `buffer_in` / `buffer_out`). -/
structure OpStep where
  execId : Nat
  touchesBuffers : Bool
  deriving DecidableEq, Repr

/-- Located steps of one `async_read_some` on the demo read stream
(src/AsyncReadStreamDemo.h): the initiation (lock the weak pointer, make
a work guard, post — runs in the calling context, touches no buffer,
lines 251-278), the transfer loop (posted to `impl->strand`, reads
`producedData`, lines 278-315) and the completion invocation (posted to
the stream executor, touches no buffer, lines 319-325). -/
def read_op_steps (strandId callerId : Nat) : List OpStep :=
  [{ execId := callerId, touchesBuffers := false },
   { execId := strandId, touchesBuffers := true },
   { execId := callerId, touchesBuffers := false }]

/-- Located steps of one `async_write_some` on the demo write stream
(src/AsyncWriteStreamDemo.h lines 196-268), same three hops: initiation
in the calling context, transfer on `impl->strand` mutating
`consumedData`, completion posted to the stream executor. -/
def write_op_steps (strandId callerId : Nat) : List OpStep :=
  [{ execId := callerId, touchesBuffers := false },
   { execId := strandId, touchesBuffers := true },
   { execId := callerId, touchesBuffers := false }]

/-- Located steps of one background-loop iteration
(`veryExpensiveOperation` bound to the strand via
`bind_executor(strand, ...)`, src/AsyncReadStreamDemo.h lines 67-93 and
src/AsyncWriteStreamDemo.h lines 64-76; the `ModernIOService` main loop
is `co_spawn`ed on the strand, examples/coro_basic_io_object.cpp lines
63-91): a single strand step mutating the buffers. -/
def loop_iter_steps (strandId : Nat) : List OpStep :=
  [{ execId := strandId, touchesBuffers := true }]

/-- Event trace of the serializer: submitted tasks run one at a time, in
submission order, so the trace is the concatenation of the tasks' step
lists, each step tagged with the index of the task it belongs to. -/
def serializerTrace : List (List OpStep) → List (Nat × OpStep)
  | [] => []
  | t :: ts => t.map (fun st => (0, st)) ++ (serializerTrace ts).map (fun p => (p.1 + 1, p.2))

/-- Invariant tying the ghost loop counter to the one-shot flag: there is
a live background loop chain exactly when `consuming` is set. -/
def ConsInv (s : ConsumerState) : Prop :=
  s.activeLoops = if s.consuming then 1 else 0

theorem write_some_loop_eq (src : List Char) : ∀ (consumed : List Char) (it : Nat),
    write_some_loop consumed it src = (ErrC.eof, it + src.length, consumed ++ src) := by
  induction src with
  | nil => intro consumed it; simp [write_some_loop]
  | cons c rest ih =>
    intro consumed it
    calc write_some_loop consumed it (c :: rest)
        = write_some_loop (consumed ++ [c]) (it + 1) rest := rfl
      _ = (ErrC.eof, it + 1 + rest.length, (consumed ++ [c]) ++ rest) := ih _ _
      _ = (ErrC.eof, it + (c :: rest).length, consumed ++ (c :: rest)) := by
            simp only [List.append_assoc, List.singleton_append, List.length_cons,
              Prod.mk.injEq, true_and, and_true]
            omega

theorem stream_write_loop_eq (src : List Char) : ∀ (bi : List Char) (it : Nat),
    stream_write_loop bi it src = (ErrC.eof, it + src.length, bi ++ src) := by
  induction src with
  | nil => intro bi it; simp [stream_write_loop]
  | cons c rest ih =>
    intro bi it
    calc stream_write_loop bi it (c :: rest)
        = stream_write_loop (bi ++ [c]) (it + 1) rest := rfl
      _ = (ErrC.eof, it + 1 + rest.length, (bi ++ [c]) ++ rest) := ih _ _
      _ = (ErrC.eof, it + (c :: rest).length, bi ++ (c :: rest)) := by
            simp only [List.append_assoc, List.singleton_append, List.length_cons,
              Prod.mk.injEq, true_and, and_true]
            omega

theorem read_some_loop_dest_full (pd : List Char) (e hd it : Nat) (acc : List Char)
    (h1 : hd ≤ e) :
    read_some_loop pd e hd 0 it acc = (ErrC.no_buffer_space, it, acc.reverse, hd, pd) := by
  rw [read_some_loop]
  simp [h1]

theorem read_some_loop_range_exhausted (pd : List Char) (e hd cap it : Nat) (acc : List Char)
    (h : e < hd) :
    read_some_loop pd e hd cap it acc = (ErrC.eof, it, acc.reverse, hd, pd) := by
  rw [read_some_loop]
  simp [Nat.not_le.mpr h]

theorem read_some_loop_source_empty (pd : List Char) (e hd cap it : Nat) (acc : List Char)
    (h1 : hd ≤ e) (h2 : cap ≠ 0) (h3 : pd.length ≤ hd) :
    read_some_loop pd e hd cap it acc = (ErrC.would_block, it, acc.reverse, hd, pd) := by
  rw [read_some_loop]
  simp [h1, h2, h3]

theorem read_some_loop_err_total (pd : List Char) (e hd cap it : Nat) (acc : List Char) :
    (read_some_loop pd e hd cap it acc).1 = ErrC.no_buffer_space
  ∨ (read_some_loop pd e hd cap it acc).1 = ErrC.would_block
  ∨ (read_some_loop pd e hd cap it acc).1 = ErrC.eof := by
  induction hd, cap, it, acc using read_some_loop.induct pd e with
  | case1 hd it acc h1 =>
    rw [read_some_loop_dest_full pd e hd it acc h1]
    simp
  | case2 hd cap it acc h1 h2 h3 =>
    rw [read_some_loop_source_empty pd e hd cap it acc h1 h2 h3]
    simp
  | case3 hd cap it acc h1 h2 h3 ih =>
    rw [read_some_loop]
    simp only [h1, dif_pos, if_neg h2, if_neg h3]
    exact ih
  | case4 hd cap it acc h1 =>
    rw [read_some_loop_range_exhausted pd e hd cap it acc (Nat.not_le.mp h1)]
    simp

theorem read_some_loop_pd (pd : List Char) (e hd cap it : Nat) (acc : List Char) :
    (read_some_loop pd e hd cap it acc).2.2.2.2 = pd := by
  induction hd, cap, it, acc using read_some_loop.induct pd e with
  | case1 hd it acc h1 =>
    rw [read_some_loop_dest_full pd e hd it acc h1]
  | case2 hd cap it acc h1 h2 h3 =>
    rw [read_some_loop_source_empty pd e hd cap it acc h1 h2 h3]
  | case3 hd cap it acc h1 h2 h3 ih =>
    rw [read_some_loop]
    simp only [h1, dif_pos, if_neg h2, if_neg h3]
    exact ih
  | case4 hd cap it acc h1 =>
    rw [read_some_loop_range_exhausted pd e hd cap it acc (Nat.not_le.mp h1)]

theorem ensureConsuming_consumedData (s : ConsumerState) :
    (ensureConsuming s).consumedData = s.consumedData := by
  unfold ensureConsuming
  split <;> rfl

theorem async_write_some_live (ex : Nat) (cons : ConsumerState) (src : List Char) :
    async_write_some { executor := ex, implAlive := true } cons src =
      { delivery := Delivery.postedTo ex,
        completion := { err := ErrC.eof, transferred := src.length },
        consumer := ensureConsuming { cons with consumedData := cons.consumedData ++ src } } := by
  simp [async_write_some, write_some_loop_eq]

theorem async_read_some_live (ex hd e cap : Nat) (pd : List Char) :
    async_read_some { executor := ex, head := hd, endIdx := e, implAlive := true } pd cap =
      { delivery := Delivery.postedTo ex,
        completion := { err := (read_some_loop pd e hd cap 0 []).1,
                        transferred := (read_some_loop pd e hd cap 0 []).2.1 },
        dataRead := (read_some_loop pd e hd cap 0 []).2.2.1,
        head := (read_some_loop pd e hd cap 0 []).2.2.2.1,
        producedData := (read_some_loop pd e hd cap 0 []).2.2.2.2 } := by
  rcases hr : read_some_loop pd e hd cap 0 [] with ⟨a, b, c, d, f⟩
  simp [async_read_some, hr]

theorem stream_async_write_some_live (ex : Nat) (bi src : List Char) :
    stream_async_write_some { executor := ex, serviceAlive := true } bi src =
      { delivery := Delivery.postedTo ex,
        completion := { err := ErrC.eof, transferred := src.length },
        buffer_in := bi ++ src } := by
  simp [stream_async_write_some, stream_write_loop_eq]

theorem cstep_preserves_inv {s t : ConsumerState} (h : CStep s t) (hs : ConsInv s) : ConsInv t := by
  unfold ConsInv at *
  cases h with
  | ensure =>
    unfold ensureConsuming
    cases hc : s.consuming <;> simp_all
  | iter hcons =>
    unfold consumeStep
    cases hd : s.consumedData <;> simp_all
  | write ex src =>
    rw [async_write_some_live]
    unfold ensureConsuming
    cases hc : s.consuming <;> simp_all

theorem reachable_inv {s : ConsumerState} (h : Relation.ReflTransGen CStep freshConsumer s) :
    ConsInv s := by
  induction h with
  | refl => simp [ConsInv, freshConsumer]
  | tail _ step ih => exact cstep_preserves_inv step ih

theorem init_fixed (n : Nat) : ∀ m : ModernIOServiceState, m.initDone = true → init^[n] m = m := by
  induction n with
  | zero => intro m _; rfl
  | succ k ih =>
    intro m hm
    rw [Function.iterate_succ_apply]
    have : init m = m := by simp [init, hm]
    rw [this]
    exact ih m hm

theorem serializerTrace_pairwise (tasks : List (List OpStep)) :
    (serializerTrace tasks).Pairwise (fun a b => a.1 ≤ b.1) := by
  induction tasks with
  | nil => simp [serializerTrace]
  | cons t ts ih =>
    rw [serializerTrace, List.pairwise_append]
    refine ⟨?_, ?_, ?_⟩
    · rw [List.pairwise_map]
      exact List.pairwise_of_forall fun _ _ => le_refl 0
    · rw [List.pairwise_map]
      exact ih.imp (fun hab => by omega)
    · intro a ha b hb
      rcases List.mem_map.mp ha with ⟨st, _, rfl⟩
      rcases List.mem_map.mp hb with ⟨p, _, rfl⟩
      simp

theorem drain_nil (sid : Nat) (w : TWorld) (h : w.queue = []) : drain sid w = w := by
  rw [drain.eq_def]
  split <;> simp_all

theorem drain_cons (sid : Nat) (w : TWorld) (t : STask) (rest : List STask)
    (h : w.queue = t :: rest) :
    drain sid w = drain sid (runTask sid { w with queue := rest } t) := by
  rw [drain.eq_def]
  split
  · simp_all
  · rename_i t' rest' h'
    rw [h] at h'
    cases h'
    rfl

theorem drain_destroys (sid : Nat) (w : TWorld) :
    w.refs = w.queue.length → w.destroyedOn = none → 0 < w.refs →
    (drain sid w).refs = 0 ∧ (drain sid w).destroyedOn = some sid := by
  induction w using drain.induct sid with
  | case1 w hq =>
    intro h1 _ h3
    rw [hq] at h1
    simp at h1
    omega
  | case2 w t rest hq ih =>
    intro h1 h2 h3
    rw [drain_cons sid w t rest hq]
    cases t with
    | releaseRef =>
      cases rest with
      | nil =>
        have hr1 : w.refs = 1 := by rw [hq] at h1; simpa using h1
        rw [drain_nil sid _ (by simp [runTask])]
        simp [runTask, hr1, h2]
      | cons r rs =>
        refine ih ?_ ?_ ?_
        · simp [runTask]; rw [hq] at h1; simp at h1; omega
        · simp [runTask, h2]; rw [hq] at h1; simp at h1; omega
        · simp [runTask]; rw [hq] at h1; simp at h1; omega
    | loopIter n =>
      cases n with
      | zero =>
        cases rest with
        | nil =>
          have hr1 : w.refs = 1 := by rw [hq] at h1; simpa using h1
          rw [drain_nil sid _ (by simp [runTask])]
          simp [runTask, hr1, h2]
        | cons r rs =>
          refine ih ?_ ?_ ?_
          · simp [runTask]; rw [hq] at h1; simp at h1; omega
          · simp [runTask, h2]; rw [hq] at h1; simp at h1; omega
          · simp [runTask]; rw [hq] at h1; simp at h1; omega
      | succ m =>
        refine ih ?_ ?_ ?_
        · simp [runTask]; rw [hq] at h1; simp at h1; omega
        · simp [runTask, h2]
        · simp [runTask]; omega

/-- C1: for every stream handle whose backing service implementation has
been destroyed (the weak reference no longer resolves at call time),
every subsequent `async_read_some` / `async_write_some` call completes
with the dead-reference error `bad_descriptor` and 0 transferred bytes,
and the completion is delivered by scheduling onto the handle's caller
executor, never by invoking the completion handler inline within the
initiating call.  Stated for the demo read and write streams and for both
directions of the coroutine stream. -/
theorem C1_dead_service_completion (ex hd e cap : Nat) (pd bo src bi : List Char)
    (cons : ConsumerState) :
    (async_read_some { executor := ex, head := hd, endIdx := e, implAlive := false } pd cap).completion
        = { err := ErrC.bad_descriptor, transferred := 0 }
  ∧ (async_read_some { executor := ex, head := hd, endIdx := e, implAlive := false } pd cap).delivery
        = Delivery.postedTo ex
  ∧ (async_read_some { executor := ex, head := hd, endIdx := e, implAlive := false } pd cap).delivery
        ≠ Delivery.inlineCall
  ∧ (async_write_some { executor := ex, implAlive := false } cons src).completion
        = { err := ErrC.bad_descriptor, transferred := 0 }
  ∧ (async_write_some { executor := ex, implAlive := false } cons src).delivery
        = Delivery.postedTo ex
  ∧ (async_write_some { executor := ex, implAlive := false } cons src).delivery
        ≠ Delivery.inlineCall
  ∧ (stream_async_read_some { executor := ex, serviceAlive := false } bo cap).completion
        = { err := ErrC.bad_descriptor, transferred := 0 }
  ∧ (stream_async_read_some { executor := ex, serviceAlive := false } bo cap).delivery
        = Delivery.postedTo ex
  ∧ (stream_async_write_some { executor := ex, serviceAlive := false } bi src).completion
        = { err := ErrC.bad_descriptor, transferred := 0 }
  ∧ (stream_async_write_some { executor := ex, serviceAlive := false } bi src).delivery
        = Delivery.postedTo ex := by
  refine ⟨rfl, rfl, by simp [async_read_some], rfl, rfl, by simp [async_write_some],
    rfl, rfl, rfl, rfl⟩

/-- C2 (Scenario B): when the service's output buffer holds exactly the
four bytes "abcd" and a caller issues a single `read_some` with a 2-byte
destination, the operation completes with `no_buffer_space`, a
transferred count of exactly 2, the bytes "ab" are delivered, and the
service buffer afterwards holds exactly "cd". -/
theorem C2_scenario_b (ex : Nat) :
    stream_async_read_some { executor := ex, serviceAlive := true } ['a', 'b', 'c', 'd'] 2 =
      { delivery := Delivery.postedTo ex,
        completion := { err := ErrC.no_buffer_space, transferred := 2 },
        dataRead := ['a', 'b'],
        buffer_out := ['c', 'd'] } := rfl

/-- C3 counterexample: with the destination full (`cap = 0`) and the
source empty (`producedData` empty) simultaneously on loop entry while
the bounded range is not exhausted (`head = 0 ≤ end = 0`), the read loop
terminates with `no_buffer_space` (buffer-exhausted), not `would_block`
as the claim's tie-break clause states. -/
theorem C3_tie_break_counterexample :
    ((0 : Nat) ≤ 0)
  ∧ (List.length ([] : List Char) ≤ 0)
  ∧ ((read_some_loop [] 0 0 0 0 []).1 = ErrC.no_buffer_space)
  ∧ (ErrC.no_buffer_space ≠ ErrC.would_block) := by
  refine ⟨Nat.le_refl 0, by simp, ?_, by simp⟩
  rw [read_some_loop_dest_full [] 0 0 0 [] (Nat.le_refl 0)]

/-- C3 (amended): in the read transfer loop of `MyAsyncReadStream` the
termination outcomes `no_buffer_space`, `would_block` and `eof` are
mutually exclusive (the loop produces exactly one of the three),
destination-full is checked before source-empty, the completion is `eof`
exactly when the bounded range is exhausted (`end < head`) on loop entry,
and a tie (destination full and source empty simultaneously on loop
entry) resolves to `eof` if the bounded range is exhausted and otherwise
to `no_buffer_space` — the destination-full check wins, not
`would_block`. -/
theorem C3_loop_outcomes (pd : List Char) (e hd cap : Nat) :
    ((read_some_loop pd e hd cap 0 []).1 = ErrC.no_buffer_space
      ∨ (read_some_loop pd e hd cap 0 []).1 = ErrC.would_block
      ∨ (read_some_loop pd e hd cap 0 []).1 = ErrC.eof)
  ∧ (hd ≤ e → cap = 0 → (read_some_loop pd e hd cap 0 []).1 = ErrC.no_buffer_space)
  ∧ (e < hd → (read_some_loop pd e hd cap 0 []).1 = ErrC.eof)
  ∧ (hd ≤ e → cap ≠ 0 → pd.length ≤ hd →
      (read_some_loop pd e hd cap 0 []).1 = ErrC.would_block) := by
  refine ⟨read_some_loop_err_total pd e hd cap 0 [], ?_, ?_, ?_⟩
  · intro h1 h2
    subst h2
    rw [read_some_loop_dest_full pd e hd 0 [] h1]
  · intro h
    rw [read_some_loop_range_exhausted pd e hd cap 0 [] h]
  · intro h1 h2 h3
    rw [read_some_loop_source_empty pd e hd cap 0 [] h1 h2 h3]

/-- Witness for C3: the amended tie-break evaluated at concrete inputs. -/
theorem C3_loop_outcomes_witness :
    (read_some_loop ['a'] 0 0 0 0 []).1 = ErrC.no_buffer_space
  ∧ (read_some_loop ['a'] 0 1 5 0 []).1 = ErrC.eof
  ∧ (read_some_loop [] 0 0 5 0 []).1 = ErrC.would_block :=
  ⟨(C3_loop_outcomes ['a'] 0 0 0).2.1 (Nat.le_refl 0) rfl,
   (C3_loop_outcomes ['a'] 0 1 5).2.2.1 (by omega),
   (C3_loop_outcomes [] 0 0 5).2.2.2 (Nat.le_refl 0) (by omega) (by simp)⟩

/-- C4 (Scenario A): if the service's output buffer is empty when the
transfer task of a `read_some` with a non-empty destination runs and the
stream's defined end condition does not hold (`head ≤ end`), the
operation completes with `would_block` and 0 transferred bytes, and the
stream and service state are unchanged. -/
theorem C4_scenario_a (ex hd e cap : Nat) (h1 : hd ≤ e) (h2 : cap ≠ 0) :
    async_read_some { executor := ex, head := hd, endIdx := e, implAlive := true } [] cap =
      { delivery := Delivery.postedTo ex,
        completion := { err := ErrC.would_block, transferred := 0 },
        dataRead := [], head := hd, producedData := [] } := by
  rw [async_read_some_live, read_some_loop_source_empty [] e hd cap 0 [] h1 h2 (by simp)]
  rfl

/-- Witness for C4: a 10-byte destination, range 0..9, empty service
buffer. -/
theorem C4_scenario_a_witness :
    async_read_some { executor := 1, head := 0, endIdx := 9, implAlive := true } [] 10 =
      { delivery := Delivery.postedTo 1,
        completion := { err := ErrC.would_block, transferred := 0 },
        dataRead := [], head := 0, producedData := [] } :=
  C4_scenario_a 1 0 9 10 (by omega) (by omega)

/-- C5 counterexample: the claim covers every cited start operation, but
the advanced example's `ModernIOServiceImpl::init` has no once-guard: a
second call is not a no-op — it unconditionally `co_spawn`s a second
main loop, so after two calls two loops have been spawned. -/
theorem C5_unguarded_init_counterexample :
    (init_advcd (init_advcd { loopsSpawned := 0 })).loopsSpawned = 2
  ∧ init_advcd (init_advcd { loopsSpawned := 0 }) ≠ init_advcd { loopsSpawned := 0 } :=
  ⟨rfl, by decide⟩

/-- C5 (amended): the guarded start operations are idempotent — in every
state reachable from the fresh consumer there is at most one live loop
chain, `ensureConsuming` is a no-op whenever the `consuming` flag says
started, and for the `call_once`-guarded `ModernIOService::init` of the
basic example any number of calls from the un-initialized state spawns
exactly one main loop while any call after initialization is a no-op —
but the advanced example's unguarded `ModernIOServiceImpl::init` spawns
one more main loop on every call. -/
theorem C5_idempotent_start :
    (∀ s : ConsumerState, Relation.ReflTransGen CStep freshConsumer s → s.activeLoops ≤ 1)
  ∧ (∀ s : ConsumerState, s.consuming = true → ensureConsuming s = s)
  ∧ (∀ n k : Nat, (init^[n + 1] { initDone := false, loopsSpawned := k }).loopsSpawned = k + 1)
  ∧ (∀ m : ModernIOServiceState, m.initDone = true → init m = m)
  ∧ (∀ s : AdvcdServiceState, (init_advcd s).loopsSpawned = s.loopsSpawned + 1) := by
  refine ⟨?_, ?_, ?_, ?_, ?_⟩
  · intro s hs
    have h := reachable_inv hs
    unfold ConsInv at h
    split at h <;> omega
  · intro s h
    simp [ensureConsuming, h]
  · intro n k
    rw [Function.iterate_succ_apply]
    have h1 : init { initDone := false, loopsSpawned := k }
        = { initDone := true, loopsSpawned := k + 1 } := by simp [init]
    rw [h1, init_fixed n _ rfl]
  · intro m h
    simp [init, h]
  · intro s
    rfl

/-- Witness for C5: concrete idempotence and non-idempotence facts. -/
theorem C5_idempotent_start_witness :
    freshConsumer.activeLoops ≤ 1
  ∧ ensureConsuming { consuming := true, consumedData := [], activeLoops := 1 }
      = { consuming := true, consumedData := [], activeLoops := 1 }
  ∧ (init^[3] { initDone := false, loopsSpawned := 0 }).loopsSpawned = 0 + 1
  ∧ init { initDone := true, loopsSpawned := 1 } = { initDone := true, loopsSpawned := 1 }
  ∧ (init_advcd { loopsSpawned := 1 }).loopsSpawned = 1 + 1 :=
  ⟨C5_idempotent_start.1 freshConsumer Relation.ReflTransGen.refl,
   C5_idempotent_start.2.1 _ rfl,
   C5_idempotent_start.2.2.1 2 0,
   C5_idempotent_start.2.2.2.1 _ rfl,
   C5_idempotent_start.2.2.2.2 { loopsSpawned := 1 }⟩

/-- C6: the wrapper destructor never runs the service implementation's
destructor inline on the caller's thread: it moves the last wrapper-held
strong reference into a zero-argument task, submits exactly that task to
the service's strand and returns without waiting (the impl is still alive
when the destructor returns, `destroyedOn = none`); once the strand has
run its queue — including any still-scheduled background-loop iterations,
which each hold their own strong reference — the impl is destroyed on the
strand (`destroyedOn = some sid`), not on the caller's thread. -/
theorem C6_deferred_teardown (sid : Nat) (w : TWorld)
    (h1 : w.wrapperRef = true) (h2 : w.refs = w.queue.length + 1) (h3 : w.destroyedOn = none) :
    (wrapperDtor w).destroyedOn = none
  ∧ (wrapperDtor w).refs = w.refs
  ∧ (wrapperDtor w).queue = w.queue ++ [STask.releaseRef]
  ∧ (drain sid (wrapperDtor w)).refs = 0
  ∧ (drain sid (wrapperDtor w)).destroyedOn = some sid := by
  have hw : wrapperDtor w = { w with queue := w.queue ++ [STask.releaseRef], wrapperRef := false } := by
    simp [wrapperDtor, h1]
  have hd := drain_destroys sid (wrapperDtor w)
    (by rw [hw]; simp; omega) (by rw [hw]; simpa using h3) (by rw [hw]; simp; omega)
  exact ⟨by rw [hw]; simpa using h3, by rw [hw], by rw [hw], hd.1, hd.2⟩

/-- Witness for C6: a wrapper plus an in-flight loop with two remaining
iterations; after the destructor and a strand drain the impl is destroyed
on strand 7. -/
theorem C6_deferred_teardown_witness :
    (wrapperDtor { queue := [STask.loopIter 2], wrapperRef := true, refs := 2, destroyedOn := none }).destroyedOn = none
  ∧ (drain 7 (wrapperDtor { queue := [STask.loopIter 2], wrapperRef := true, refs := 2, destroyedOn := none })).refs = 0
  ∧ (drain 7 (wrapperDtor { queue := [STask.loopIter 2], wrapperRef := true, refs := 2, destroyedOn := none })).destroyedOn = some 7 := by
  have h := C6_deferred_teardown 7
    { queue := [STask.loopIter 2], wrapperRef := true, refs := 2, destroyedOn := none } rfl rfl rfl
  exact ⟨h.1, h.2.2.2.1, h.2.2.2.2⟩

/-- C7 counterexample: a zero-length buffer is not reported with a
distinct malformed-request error.  A zero-length `write_some` completes
with `(eof, 0)` — the very same error code as the success path of a
non-empty write — and a zero-length `read_some` completes with
`no_buffer_space`, another existing error.  No malformed-request code
exists in the source's error vocabulary. -/
theorem C7_no_malformed_request_counterexample :
    (async_write_some { executor := 0, implAlive := true } freshConsumer []).completion
        = { err := ErrC.eof, transferred := 0 }
  ∧ (async_write_some { executor := 0, implAlive := true } freshConsumer ['x']).completion.err
        = ErrC.eof
  ∧ (stream_async_write_some { executor := 0, serviceAlive := true } [] []).completion
        = { err := ErrC.eof, transferred := 0 }
  ∧ (async_read_some { executor := 0, head := 0, endIdx := 3, implAlive := true } ['a'] 0).completion
        = { err := ErrC.no_buffer_space, transferred := 0 } := by
  refine ⟨rfl, rfl, rfl, ?_⟩
  rw [async_read_some_live, read_some_loop_dest_full ['a'] 3 0 0 [] (by omega)]

/-- C7 (amended): a `read_some` invoked with a zero-length buffer while
the bounded range is not exhausted completes with `no_buffer_space`
(buffer-exhausted) and 0 bytes, a zero-length coroutine-stream read with
data available does the same, a zero-length coroutine-stream read with an
empty service buffer completes with `eof`, and a zero-length `write_some`
completes with `eof` and 0 bytes — there is no distinct malformed-request
error; the caller sees an ordinary completion, not a dedicated
precondition-violation report. -/
theorem C7_zero_length_outcomes (ex hd e : Nat) (pd : List Char) (cons : ConsumerState)
    (bi rest : List Char) (c : Char) (h1 : hd ≤ e) :
    (async_read_some { executor := ex, head := hd, endIdx := e, implAlive := true } pd 0).completion
        = { err := ErrC.no_buffer_space, transferred := 0 }
  ∧ (async_write_some { executor := ex, implAlive := true } cons []).completion
        = { err := ErrC.eof, transferred := 0 }
  ∧ (stream_async_write_some { executor := ex, serviceAlive := true } bi []).completion
        = { err := ErrC.eof, transferred := 0 }
  ∧ (stream_async_read_some { executor := ex, serviceAlive := true } (c :: rest) 0).completion
        = { err := ErrC.no_buffer_space, transferred := 0 }
  ∧ (stream_async_read_some { executor := ex, serviceAlive := true } [] 0).completion
        = { err := ErrC.eof, transferred := 0 } := by
  refine ⟨?_, ?_, ?_, rfl, rfl⟩
  · rw [async_read_some_live, read_some_loop_dest_full pd e hd 0 [] h1]
  · rw [async_write_some_live]
    rfl
  · rw [stream_async_write_some_live]
    rfl

/-- Witness for C7: the amended zero-length behavior at concrete inputs. -/
theorem C7_zero_length_outcomes_witness :
    (async_read_some { executor := 2, head := 1, endIdx := 4, implAlive := true } ['a', 'b'] 0).completion
        = { err := ErrC.no_buffer_space, transferred := 0 }
  ∧ (async_write_some { executor := 2, implAlive := true } freshConsumer []).completion
        = { err := ErrC.eof, transferred := 0 } := by
  have h := C7_zero_length_outcomes 2 1 4 ['a', 'b'] freshConsumer [] [] 'z' (by omega)
  exact ⟨h.1, h.2.1⟩

/-- C8: every step of a read or write operation or of a background-loop
iteration that touches the shared buffers is located on the service's
strand, and the serializer's execution of submitted tasks never
interleaves steps of different tasks: its event trace is ordered by task
index, so all buffer mutations of one submitted task precede those of any
later-submitted task. -/
theorem C8_serializer_discipline (strandId callerId : Nat) :
    (∀ st ∈ read_op_steps strandId callerId ++ write_op_steps strandId callerId
              ++ loop_iter_steps strandId,
        st.touchesBuffers = true → st.execId = strandId)
  ∧ (∀ tasks : List (List OpStep),
        (serializerTrace tasks).Pairwise (fun a b => a.1 ≤ b.1)) := by
  constructor
  · intro st hst htouch
    simp only [read_op_steps, write_op_steps, loop_iter_steps, List.mem_append,
      List.mem_cons, List.not_mem_nil, or_false] at hst
    rcases hst with ((h | h | h) | (h | h | h)) | h <;> subst h <;> simp_all
  · intro tasks
    exact serializerTrace_pairwise tasks

/-- Witness for C8: the transfer step of a read operation on strand 5
with caller executor 9, and a concrete two-task serializer trace. -/
theorem C8_serializer_discipline_witness :
    ({ execId := 5, touchesBuffers := true } : OpStep).execId = 5
  ∧ (serializerTrace [read_op_steps 5 9, loop_iter_steps 5]).Pairwise (fun a b => a.1 ≤ b.1) :=
  ⟨(C8_serializer_discipline 5 9).1 { execId := 5, touchesBuffers := true } (by decide) rfl,
   (C8_serializer_discipline 5 9).2 [read_op_steps 5 9, loop_iter_steps 5]⟩

/-- C9: a `write_some` on a live service copies the entire source buffer:
the transferred count equals the source size, exactly those bytes are
appended in order to the end of the service's input buffer
(`consumedData` for the demo stream, `buffer_in` for the coroutine
stream), and the success-path completion code is `eof` — a write never
completes partially and never reports `would_block`. -/
theorem C9_write_completes_fully (ex : Nat) (cons : ConsumerState) (src bi : List Char) :
    (async_write_some { executor := ex, implAlive := true } cons src).completion
        = { err := ErrC.eof, transferred := src.length }
  ∧ (async_write_some { executor := ex, implAlive := true } cons src).consumer.consumedData
        = cons.consumedData ++ src
  ∧ (stream_async_write_some { executor := ex, serviceAlive := true } bi src).completion
        = { err := ErrC.eof, transferred := src.length }
  ∧ (stream_async_write_some { executor := ex, serviceAlive := true } bi src).buffer_in
        = bi ++ src := by
  rw [async_write_some_live, stream_async_write_some_live]
  refine ⟨rfl, ?_, rfl, rfl⟩
  rw [ensureConsuming_consumedData]

/-- C10: a read through `MyAsyncReadStream` never modifies the service's
`producedData` buffer — the transfer only copies bytes out and advances
the handle's private head cursor — and therefore a second handle (or the
same handle re-issued) over the same range on the same service observes
exactly the same result. -/
theorem C10_read_preserves_produced_data (ex hd e cap : Nat) (pd : List Char) :
    (async_read_some { executor := ex, head := hd, endIdx := e, implAlive := true } pd cap).producedData
        = pd
  ∧ async_read_some { executor := ex, head := hd, endIdx := e, implAlive := true }
      ((async_read_some { executor := ex, head := hd, endIdx := e, implAlive := true } pd cap).producedData)
      cap
    = async_read_some { executor := ex, head := hd, endIdx := e, implAlive := true } pd cap := by
  have hp : (async_read_some { executor := ex, head := hd, endIdx := e, implAlive := true } pd cap).producedData = pd := by
    rw [async_read_some_live]
    exact read_some_loop_pd pd e hd cap 0 []
  exact ⟨hp, by rw [hp]⟩
